import Mathlib

/-!
Verification of the deep-link router of the GatewayZ desktop shell
(`src-tauri/src/lib.rs`, functions `setup_deep_link_handler` and
`handle_deep_link`).

The router receives a raw payload string from the host, parses it as a URL
(directly, or as the first element of a JSON array of strings), and emits a
navigation event on the main window after showing and focusing it.  We embed
the router as a pure function from the payload (and the availability of the
main window) to an ordered trace of the side effects it performs: log calls,
window show/focus requests, and emitted events.

The two library functions the router calls — `url::Url::parse` and
`serde_json::from_str::<Vec<String>>` — are external crates; they are
modelled here executably, restricted to the behaviour the router exercises:
* `url_parse` follows the WHATWG absolute-URL grammar for a non-special
  scheme (scheme, optional `//`-authority, path, optional query, optional
  fragment).  Userinfo/port splitting, IDNA host processing, dot-segment
  removal and percent-encoding normalisation of path/query are not modelled;
  no claim depends on them and the `gatewayz://` deep links contain none.
* `json_parse_string_array` is a complete JSON parser for the type
  `Vec<String>`: a single array of JSON strings (with all escape forms,
  including surrogate pairs), rejecting non-string elements, raw control
  characters, lone surrogates and trailing garbage, exactly as serde_json
  does.
* `query_pairs_of_string` follows `form_urlencoded::parse`: split on `&`,
  skip empty pieces, split each piece at the first `=`, replace `+` by space
  and percent-decode.  Percent-escapes are decoded to the code point of the
  byte (exact for ASCII; multi-byte UTF-8 recombination is not modelled and
  is exercised by no claim).
-/

namespace Gatewayz

/-- A parsed URL, the shape returned by `url::Url::parse` as the router
observes it through `url.path()`, `url.query()` and `url.query_pairs()`. -/
structure Url where
  scheme : String
  host : Option String
  path : String
  query : Option String
  fragment : Option String
deriving DecidableEq, Repr

/-- Argument of an emitted event: `()` in the Rust source (`new-chat`) or a
string payload (`navigate`, `auth-callback`). -/
inductive Arg where
  | unit : Arg
  | str : String → Arg
deriving DecidableEq, Repr

/-- One observable side effect of the router, in the order the Rust code
performs them. -/
inductive Action where
  | logInfo : String → Action
  | logWarn : String → Action
  | logError : String → Action
  | showWindow : Action
  | setFocus : Action
  | emit : String → Arg → Action
deriving DecidableEq, Repr

/-- Is this action an emitted navigation event? -/
def Action.isEmit : Action → Bool
  | .emit _ _ => true
  | _ => false

/-- Number of emitted events in a trace. -/
def emitCount (l : List Action) : Nat := (l.filter Action.isEmit).length

/- ### Model of `form_urlencoded::parse` (used by `url.query_pairs()`) -/

/-- Hexadecimal digit value. -/
def hexVal (c : Char) : Option Nat :=
  if '0' ≤ c ∧ c ≤ '9' then some (c.toNat - '0'.toNat)
  else if 'a' ≤ c ∧ c ≤ 'f' then some (c.toNat - 'a'.toNat + 10)
  else if 'A' ≤ c ∧ c ≤ 'F' then some (c.toNat - 'A'.toNat + 10)
  else none

/-- Split a character list on a separator, keeping empty pieces. -/
def splitOnChar (sep : Char) : List Char → List (List Char)
  | [] => [[]]
  | c :: rest =>
    let r := splitOnChar sep rest
    if c = sep then [] :: r
    else
      match r with
      | h :: t => (c :: h) :: t
      | [] => [[c]]

/-- Split a piece at the first `=` into name and value; a piece without `=`
has the empty value (as in `form_urlencoded`). -/
def splitKV : List Char → List Char × List Char
  | [] => ([], [])
  | '=' :: rest => ([], rest)
  | c :: rest =>
    let (k, v) := splitKV rest
    (c :: k, v)

/-- `+` to space, then percent-decode: `%XX` with two hex digits becomes the
code point `XX`; a `%` not followed by two hex digits stays literal. -/
def formDecode : List Char → List Char
  | [] => []
  | '%' :: a :: b :: rest =>
    match hexVal a, hexVal b with
    | some ha, some hb => Char.ofNat (16 * ha + hb) :: formDecode rest
    | _, _ => '%' :: formDecode (a :: b :: rest)
  | '+' :: rest => ' ' :: formDecode rest
  | c :: rest => c :: formDecode rest

/-- The pairs of `form_urlencoded::parse` on a raw query string: split on
`&`, drop empty pieces, split each at the first `=`, decode both sides. -/
def query_pairs_of_string (q : String) : List (String × String) :=
  ((splitOnChar '&' q.data).filter (fun p => !p.isEmpty)).map fun piece =>
    let (k, v) := splitKV piece
    (String.mk (formDecode k), String.mk (formDecode v))

/-- `url.query_pairs()`: form-urlencoded pairs of the query string (empty
string when the URL has no query). -/
def Url.query_pairs (u : Url) : List (String × String) :=
  query_pairs_of_string (u.query.getD "")

/- ### Model of `url::Url::parse` -/

/-- WHATWG URL preprocessing: strip leading/trailing C0 controls and spaces,
remove all tabs and newlines. -/
def urlPreprocess (cs : List Char) : List Char :=
  let stripped :=
    ((cs.dropWhile fun c => c.toNat ≤ 32).reverse.dropWhile fun c => c.toNat ≤ 32).reverse
  stripped.filter fun c => !(c = '\t' ∨ c = '\n' ∨ c = '\r')

/-- Scheme continuation characters: ASCII alphanumeric, `+`, `-`, `.`. -/
def isSchemeChar (c : Char) : Bool :=
  c.isAlphanum || c = '+' || c = '-' || c = '.'

/-- Consume scheme characters up to `:`; `acc` holds the reversed prefix. -/
def takeSchemeAux : List Char → List Char → Option (String × List Char)
  | acc, ':' :: rest => some (String.mk ((acc.map Char.toLower).reverse), rest)
  | acc, c :: rest => if isSchemeChar c then takeSchemeAux (c :: acc) rest else none
  | _, [] => none

/-- Split off the scheme: first character ASCII alpha, then scheme
characters, then `:`; the scheme is lowercased.  Fails otherwise (the input
is then a relative reference, which `Url::parse` rejects). -/
def splitScheme (cs : List Char) : Option (String × List Char) :=
  match cs with
  | c :: rest => if c.isAlpha then takeSchemeAux [c] rest else none
  | [] => none

/-- Take characters until one of `stops` (which is left in the remainder). -/
def takeUntil (stops : List Char) : List Char → List Char × List Char
  | [] => ([], [])
  | c :: rest =>
    if stops.contains c then ([], c :: rest)
    else
      let (a, b) := takeUntil stops rest
      (c :: a, b)

/-- Parse optional `?query` and `#fragment` from what follows the path. -/
def parseQueryFragment (cs : List Char) : Option String × Option String :=
  match cs with
  | '?' :: rest =>
    let (q, rest2) := takeUntil ['#'] rest
    match rest2 with
    | '#' :: f => (some (String.mk q), some (String.mk f))
    | _ => (some (String.mk q), none)
  | '#' :: f => (none, some (String.mk f))
  | _ => (none, none)

/-- Parse what follows `scheme:`: a `//`-authority with host and
slash-prefixed path, or an opaque path; then query and fragment. -/
def parseAfterScheme (scheme : String) (rest : List Char) : Url :=
  match rest with
  | '/' :: '/' :: rest2 =>
    let (hostChars, rest3) := takeUntil ['/', '?', '#'] rest2
    let (pathChars, rest4) :=
      match rest3 with
      | '/' :: _ => takeUntil ['?', '#'] rest3
      | _ => ([], rest3)
    let (q, f) := parseQueryFragment rest4
    { scheme := scheme, host := some (String.mk hostChars),
      path := String.mk pathChars, query := q, fragment := f }
  | _ =>
    let (pathChars, rest2) := takeUntil ['?', '#'] rest
    let (q, f) := parseQueryFragment rest2
    { scheme := scheme, host := none,
      path := String.mk pathChars, query := q, fragment := f }

/-- Model of `url::Url::parse` for absolute URLs with a non-special scheme:
preprocess, split the scheme, then authority/path/query/fragment.  `none`
models `Err` (in particular for every input without a valid `scheme:`
prefix, such as free text or a JSON array literal). -/
def url_parse (s : String) : Option Url :=
  match splitScheme (urlPreprocess s.data) with
  | some (scheme, rest) => some (parseAfterScheme scheme rest)
  | none => none

/- ### Model of `serde_json::from_str::<Vec<String>>` -/

/-- JSON whitespace. -/
def jsonWs (c : Char) : Bool :=
  c = ' ' || c = '\t' || c = '\n' || c = '\r'

/-- Drop leading JSON whitespace. -/
def skipWs (cs : List Char) : List Char := cs.dropWhile jsonWs

/-- Four hex digits to a number. -/
def hex4 (a b c d : Char) : Option Nat := do
  let va ← hexVal a
  let vb ← hexVal b
  let vc ← hexVal c
  let vd ← hexVal d
  pure (((va * 16 + vb) * 16 + vc) * 16 + vd)

/-- Body of a JSON string after the opening quote: plain characters, the
two-character escapes, and `\uXXXX` with surrogate-pair combination; raw
control characters, unknown escapes and lone surrogates are rejected, as in
serde_json. -/
def parseStringBody : List Char → List Char → Option (String × List Char)
  | acc, '"' :: rest => some (String.mk acc.reverse, rest)
  | acc, '\\' :: esc =>
    match esc with
    | '"' :: r => parseStringBody ('"' :: acc) r
    | '\\' :: r => parseStringBody ('\\' :: acc) r
    | '/' :: r => parseStringBody ('/' :: acc) r
    | 'b' :: r => parseStringBody (Char.ofNat 8 :: acc) r
    | 'f' :: r => parseStringBody (Char.ofNat 12 :: acc) r
    | 'n' :: r => parseStringBody ('\n' :: acc) r
    | 'r' :: r => parseStringBody ('\r' :: acc) r
    | 't' :: r => parseStringBody ('\t' :: acc) r
    | 'u' :: a :: b :: c :: d :: r =>
      match hex4 a b c d with
      | none => none
      | some n =>
        if 0xD800 ≤ n ∧ n ≤ 0xDBFF then
          match r with
          | '\\' :: 'u' :: a2 :: b2 :: c2 :: d2 :: r2 =>
            match hex4 a2 b2 c2 d2 with
            | some m =>
              if 0xDC00 ≤ m ∧ m ≤ 0xDFFF then
                parseStringBody
                  (Char.ofNat (0x10000 + (n - 0xD800) * 0x400 + (m - 0xDC00)) :: acc) r2
              else none
            | none => none
          | _ => none
        else if 0xDC00 ≤ n ∧ n ≤ 0xDFFF then none
        else parseStringBody (Char.ofNat n :: acc) r
    | _ => none
  | acc, c :: rest =>
    if c.toNat < 0x20 then none else parseStringBody (c :: acc) rest
  | _, [] => none

/-- A JSON string, opening quote included. -/
def parseJsonString (cs : List Char) : Option (String × List Char) :=
  match cs with
  | '"' :: rest => parseStringBody [] rest
  | _ => none

/-- Elements of a JSON array of strings, starting at the first element and
ending just after the closing `]`.  The fuel only bounds the number of
elements; `json_parse_string_array` supplies enough for any input. -/
def parseElems : Nat → List Char → Option (List String × List Char)
  | 0, _ => none
  | fuel + 1, cs => do
    let (s, rest) ← parseJsonString cs
    match skipWs rest with
    | ',' :: rest2 =>
      let (ss, rest3) ← parseElems fuel (skipWs rest2)
      pure (s :: ss, rest3)
    | ']' :: rest2 => pure ([s], rest2)
    | _ => none

/-- Model of `serde_json::from_str::<Vec<String>>`: exactly one JSON array
of strings, with only whitespace allowed around it; everything else is an
error (`none`). -/
def json_parse_string_array (s : String) : Option (List String) :=
  match skipWs s.data with
  | '[' :: rest =>
    match skipWs rest with
    | ']' :: rest2 => if (skipWs rest2).isEmpty then some [] else none
    | rest2 => do
      let (ss, rest3) ← parseElems (s.length + 1) rest2
      if (skipWs rest3).isEmpty then pure ss else none
  | _ => none

/- ### The router itself (`handle_deep_link` and the listener closure of
`setup_deep_link_handler`) -/

/-- Display of a URL, as `log::info!` formats it in `handle_deep_link`. -/
def Url.serialize (u : Url) : String :=
  u.scheme ++ ":" ++
  (match u.host with | some h => "//" ++ h | none => "") ++
  u.path ++
  (match u.query with | some q => "?" ++ q | none => "") ++
  (match u.fragment with | some f => "#" ++ f | none => "")

/-- `handle_deep_link(app, url)`: the ordered side effects performed for a
successfully parsed URL.  `windowExists` is the result of the
`app.get_webview_window("main")` lookup. -/
def handle_deep_link (windowExists : Bool) (u : Url) : List Action :=
  Action.logInfo ("Handling deep link: " ++ u.serialize) ::
  if windowExists then
    Action.showWindow :: Action.setFocus ::
    (if u.path = "/chat" then
      match (u.query_pairs.find? fun p => p.1 == "id").map (fun p => p.2) with
      | some chat_id => [Action.emit "navigate" (Arg.str ("/chat?id=" ++ chat_id))]
      | none => [Action.emit "new-chat" Arg.unit]
    else if u.path = "/auth/callback" then
      [Action.logInfo "Auth callback received, emitting auth-callback event",
       Action.emit "auth-callback" (Arg.str (u.query.getD ""))]
    else
      [Action.emit "navigate" (Arg.str u.path)])
  else
    [Action.logError "Failed to get main window for deep link handling"]

/-- The closure registered on `deep-link://new-url` in
`setup_deep_link_handler`: try the payload as a URL, else as a JSON array of
strings whose first element is tried as a URL, else warn. -/
def route (windowExists : Bool) (payload : String) : List Action :=
  Action.logInfo ("Received deep link: " ++ payload) ::
  match url_parse payload with
  | some u => handle_deep_link windowExists u
  | none =>
    match json_parse_string_array payload with
    | some (first :: _) =>
      match url_parse first with
      | some u => handle_deep_link windowExists u
      | none => [Action.logWarn ("Failed to parse deep link payload: " ++ payload)]
    | _ => [Action.logWarn ("Failed to parse deep link payload: " ++ payload)]

/-- A sequence of independent invocations of the listener: the closure
captures only the immutable `app_handle`, so each invocation's trace is a
function of its own payload. -/
def routeAll (windowExists : Bool) (payloads : List String) : List (List Action) :=
  payloads.map (route windowExists)

/- ### Helper lemmas -/

theorem emitCount_cons (a : Action) (l : List Action) :
    emitCount (a :: l) = (if a.isEmit then 1 else 0) + emitCount l := by
  simp only [emitCount, List.filter_cons]
  split <;> simp [Nat.add_comm]

/-- The trace of `handle_deep_link` holds exactly one emitted event when the
main window exists and none otherwise. -/
theorem handle_emitCount (w : Bool) (u : Url) :
    emitCount (handle_deep_link w u) = if w then 1 else 0 := by
  cases w with
  | false => simp [handle_deep_link, emitCount, Action.isEmit]
  | true =>
    by_cases h1 : u.path = "/chat"
    · rcases hf : (u.query_pairs.find? fun p => p.1 == "id") with _ | ⟨k, v⟩ <;>
        simp [handle_deep_link, h1, hf, emitCount, Action.isEmit]
    · by_cases h2 : u.path = "/auth/callback" <;>
        simp [handle_deep_link, h1, h2, emitCount, Action.isEmit]

/-- `List.find?` returns the first pair whose key is `"id"` when no earlier
pair has that key. -/
theorem find?_first_id (l1 l2 : List (String × String)) (v : String)
    (hfirst : ∀ kv ∈ l1, kv.1 ≠ "id") :
    ((l1 ++ ("id", v) :: l2).find? fun p => p.1 == "id") = some ("id", v) := by
  induction l1 with
  | nil => simp [List.find?]
  | cons a t ih =>
    have ha : a.1 ≠ "id" := hfirst a (List.mem_cons_self a t)
    have ht : ∀ kv ∈ t, kv.1 ≠ "id" := fun kv hkv => hfirst kv (List.mem_cons_of_mem a hkv)
    simpa [List.find?_cons, ha] using ih ht

/- ### Claim theorems -/

/-- C2: for every successfully parsed URL whose path is exactly `/chat`, if a
query parameter named `id` is present (first match of `query_pairs`), the
router shows and focuses the window and emits `navigate` with argument
`/chat?id=<id>` where `<id>` is the value as standard query-parsing yields
it; if no `id` parameter is present it emits `new-chat` with the unit (empty)
argument. -/
theorem chat_branch_routing (u : Url) (h : u.path = "/chat") :
    (∀ k v, (u.query_pairs.find? fun p => p.1 == "id") = some (k, v) →
      handle_deep_link true u =
        [Action.logInfo ("Handling deep link: " ++ u.serialize), Action.showWindow,
         Action.setFocus, Action.emit "navigate" (Arg.str ("/chat?id=" ++ v))]) ∧
    ((u.query_pairs.find? fun p => p.1 == "id") = none →
      handle_deep_link true u =
        [Action.logInfo ("Handling deep link: " ++ u.serialize), Action.showWindow,
         Action.setFocus, Action.emit "new-chat" Arg.unit]) := by
  constructor
  · intro k v hf
    simp [handle_deep_link, h, hf]
  · intro hf
    simp [handle_deep_link, h, hf]

/-- Witness for C2 on `gatewayz://app/chat?id=42` (and the `id`-less URL
`gatewayz://app/chat` for the second conjunct). -/
theorem chat_branch_routing_witness :
    handle_deep_link true ⟨"gatewayz", some "app", "/chat", some "id=42", none⟩ =
      [Action.logInfo "Handling deep link: gatewayz://app/chat?id=42", Action.showWindow,
       Action.setFocus, Action.emit "navigate" (Arg.str "/chat?id=42")] ∧
    handle_deep_link true ⟨"gatewayz", some "app", "/chat", none, none⟩ =
      [Action.logInfo "Handling deep link: gatewayz://app/chat", Action.showWindow,
       Action.setFocus, Action.emit "new-chat" Arg.unit] :=
  ⟨(chat_branch_routing ⟨"gatewayz", some "app", "/chat", some "id=42", none⟩ rfl).1
      "id" "42" (by decide),
   (chat_branch_routing ⟨"gatewayz", some "app", "/chat", none, none⟩ rfl).2 (by decide)⟩

/-- C3: for every successfully parsed URL whose path is exactly
`/auth/callback`, the router shows and focuses the window and emits
`auth-callback` whose argument is the URL's raw query string, or the empty
string when the URL has no query. -/
theorem auth_callback_routing (u : Url) (h : u.path = "/auth/callback") :
    handle_deep_link true u =
      [Action.logInfo ("Handling deep link: " ++ u.serialize), Action.showWindow,
       Action.setFocus,
       Action.logInfo "Auth callback received, emitting auth-callback event",
       Action.emit "auth-callback" (Arg.str (u.query.getD ""))] ∧
    (u.query = none → (Arg.str (u.query.getD "")) = Arg.str "") := by
  refine ⟨?_, fun hq => by simp [hq]⟩
  simp [handle_deep_link, h]

/-- Witness for C3 on `gatewayz://app/auth/callback?code=abc&state=xyz`. -/
theorem auth_callback_routing_witness :
    handle_deep_link true ⟨"gatewayz", some "app", "/auth/callback",
        some "code=abc&state=xyz", none⟩ =
      [Action.logInfo "Handling deep link: gatewayz://app/auth/callback?code=abc&state=xyz",
       Action.showWindow, Action.setFocus,
       Action.logInfo "Auth callback received, emitting auth-callback event",
       Action.emit "auth-callback" (Arg.str "code=abc&state=xyz")] :=
  (auth_callback_routing ⟨"gatewayz", some "app", "/auth/callback",
      some "code=abc&state=xyz", none⟩ rfl).1

/-- C4: for every successfully parsed URL whose path is neither `/chat` nor
`/auth/callback`, the router shows and focuses the window and emits
`navigate` whose argument is the URL's literal path string. -/
theorem default_branch_routing (u : Url) (h1 : u.path ≠ "/chat")
    (h2 : u.path ≠ "/auth/callback") :
    handle_deep_link true u =
      [Action.logInfo ("Handling deep link: " ++ u.serialize), Action.showWindow,
       Action.setFocus, Action.emit "navigate" (Arg.str u.path)] := by
  simp [handle_deep_link, h1, h2]

/-- Witness for C4 on `gatewayz://app/settings`. -/
theorem default_branch_routing_witness :
    handle_deep_link true ⟨"gatewayz", some "app", "/settings", none, none⟩ =
      [Action.logInfo "Handling deep link: gatewayz://app/settings", Action.showWindow,
       Action.setFocus, Action.emit "navigate" (Arg.str "/settings")] :=
  default_branch_routing ⟨"gatewayz", some "app", "/settings", none, none⟩
    (by decide) (by decide)

/-- C6: when no main window exists, the trace of `handle_deep_link` is
exactly an info log followed by one error log — so no event is emitted, no
show/focus occurs, and nothing else (no retry) happens; the function is
total, so the process does not crash. -/
theorem no_window_drops_intent (u : Url) :
    handle_deep_link false u =
      [Action.logInfo ("Handling deep link: " ++ u.serialize),
       Action.logError "Failed to get main window for deep link handling"] ∧
    emitCount (handle_deep_link false u) = 0 ∧
    Action.showWindow ∉ handle_deep_link false u ∧
    Action.setFocus ∉ handle_deep_link false u := by
  refine ⟨by simp [handle_deep_link], ?_, ?_, ?_⟩ <;>
    simp [handle_deep_link, emitCount, Action.isEmit]

/-- Witness for C6 on `gatewayz://app/settings` with no main window. -/
theorem no_window_drops_intent_witness :
    handle_deep_link false ⟨"gatewayz", some "app", "/settings", none, none⟩ =
      [Action.logInfo "Handling deep link: gatewayz://app/settings",
       Action.logError "Failed to get main window for deep link handling"] :=
  (no_window_drops_intent ⟨"gatewayz", some "app", "/settings", none, none⟩).1

/-- C1: for every payload, the listener first tries the payload itself as an
absolute URL and dispatches it on success; only on failure does it try the
payload as a JSON array of strings, dispatching the parse of the first
element; and when neither yields a URL (invalid JSON, empty array, or
unparseable first element) the whole trace is the received-payload info log
followed by one warning — no event is emitted and no error is logged. -/
theorem route_parse_precedence (w : Bool) (p : String) :
    (∀ u, url_parse p = some u →
      route w p = Action.logInfo ("Received deep link: " ++ p) :: handle_deep_link w u) ∧
    (url_parse p = none → ∀ f r, json_parse_string_array p = some (f :: r) →
      ∀ u, url_parse f = some u →
      route w p = Action.logInfo ("Received deep link: " ++ p) :: handle_deep_link w u) ∧
    (url_parse p = none →
      (∀ f r, json_parse_string_array p = some (f :: r) → url_parse f = none) →
      route w p = [Action.logInfo ("Received deep link: " ++ p),
                   Action.logWarn ("Failed to parse deep link payload: " ++ p)] ∧
      ∀ a ∈ route w p, a.isEmit = false ∧ ∀ m, a ≠ Action.logError m) := by
  refine ⟨fun u hu => by simp [route, hu], ?_, ?_⟩
  · intro h0 f r hj u hu
    simp [route, h0, hj, hu]
  · intro h0 hfail
    have heq : route w p = [Action.logInfo ("Received deep link: " ++ p),
        Action.logWarn ("Failed to parse deep link payload: " ++ p)] := by
      cases hj : json_parse_string_array p with
      | none => simp [route, h0, hj]
      | some l =>
        cases l with
        | nil => simp [route, h0, hj]
        | cons f r =>
          have hf : url_parse f = none := hfail f r hj
          simp [route, h0, hj, hf]
    refine ⟨heq, ?_⟩
    rw [heq]
    intro a ha
    simp only [List.mem_cons, List.not_mem_nil, or_false] at ha
    rcases ha with rfl | rfl
    · exact ⟨rfl, fun m hm => by cases hm⟩
    · exact ⟨rfl, fun m hm => by cases hm⟩

/-- Witness for C1: the unparseable payload `not a url` yields only the info
log and the warning. -/
theorem route_parse_precedence_witness :
    route true "not a url" = [Action.logInfo "Received deep link: not a url",
      Action.logWarn "Failed to parse deep link payload: not a url"] :=
  ((route_parse_precedence true "not a url").2.2 (by decide)
    (fun f r hj => by
      rw [show json_parse_string_array "not a url" = none from by decide] at hj
      cases hj)).1

/-- C5: whenever a parsed URL is dispatched with the main window available,
the trace starts with the info log, then the window-show request, then the
focus request, and only after these does an emitted event occur — in every
path branch. -/
theorem show_focus_before_emit (u : Url) :
    (∃ rest, handle_deep_link true u =
      Action.logInfo ("Handling deep link: " ++ u.serialize) ::
        Action.showWindow :: Action.setFocus :: rest ∧
      rest.any Action.isEmit = true) ∧
    (∀ p, url_parse p = some u →
      ∃ rest, route true p =
        Action.logInfo ("Received deep link: " ++ p) ::
          Action.logInfo ("Handling deep link: " ++ u.serialize) ::
          Action.showWindow :: Action.setFocus :: rest ∧
        rest.any Action.isEmit = true) := by
  have main : ∃ rest, handle_deep_link true u =
      Action.logInfo ("Handling deep link: " ++ u.serialize) ::
        Action.showWindow :: Action.setFocus :: rest ∧
      rest.any Action.isEmit = true := ?_
  · refine ⟨main, fun p hp => ?_⟩
    obtain ⟨rest, heq, hany⟩ := main
    exact ⟨rest, by simp [route, hp, heq], hany⟩
  by_cases h1 : u.path = "/chat"
  · rcases hf : (u.query_pairs.find? fun p => p.1 == "id") with _ | ⟨k, v⟩
    · refine ⟨[Action.emit "new-chat" Arg.unit], ?_, by simp [Action.isEmit]⟩
      simp [handle_deep_link, h1, hf]
    · refine ⟨[Action.emit "navigate" (Arg.str ("/chat?id=" ++ v))], ?_,
        by simp [Action.isEmit]⟩
      simp [handle_deep_link, h1, hf]
  · by_cases h2 : u.path = "/auth/callback"
    · refine ⟨[Action.logInfo "Auth callback received, emitting auth-callback event",
        Action.emit "auth-callback" (Arg.str (u.query.getD ""))], ?_,
        by simp [Action.isEmit]⟩
      simp [handle_deep_link, h1, h2]
    · refine ⟨[Action.emit "navigate" (Arg.str u.path)], ?_, by simp [Action.isEmit]⟩
      simp [handle_deep_link, h1, h2]

/-- C7: at most one navigation event is emitted per invocation; when the
payload is a JSON array, the dispatched trace is determined by the first
element alone (the remaining elements do not occur in the result); and the
trace of an invocation is independent of any earlier invocations — the
listener closure captures no mutable state. -/
theorem single_intent_first_url_wins :
    (∀ w p, emitCount (route w p) ≤ 1) ∧
    (∀ w p f r, url_parse p = none → json_parse_string_array p = some (f :: r) →
      route w p = Action.logInfo ("Received deep link: " ++ p) ::
        (match url_parse f with
         | some u => handle_deep_link w u
         | none => [Action.logWarn ("Failed to parse deep link payload: " ++ p)])) ∧
    (∀ w pre pl, routeAll w (pre ++ [pl]) = routeAll w pre ++ [route w pl]) := by
  refine ⟨?_, ?_, fun w pre pl => by simp [routeAll]⟩
  · intro w p
    rcases hu : url_parse p with _ | u
    · cases hj : json_parse_string_array p with
      | none => simp [route, hu, hj, emitCount, Action.isEmit]
      | some l =>
        cases l with
        | nil => simp [route, hu, hj, emitCount, Action.isEmit]
        | cons f r =>
          rcases hf : url_parse f with _ | u
          · simp [route, hu, hj, hf, emitCount, Action.isEmit]
          · have heq : route w p = Action.logInfo ("Received deep link: " ++ p) ::
                handle_deep_link w u := by simp [route, hu, hj, hf]
            rw [heq, emitCount_cons, handle_emitCount]
            cases w <;> simp [Action.isEmit]
    · have heq : route w p = Action.logInfo ("Received deep link: " ++ p) ::
          handle_deep_link w u := by simp [route, hu]
      rw [heq, emitCount_cons, handle_emitCount]
      cases w <;> simp [Action.isEmit]
  · intro w p f r h0 hj
    rcases hf : url_parse f with _ | u <;> simp [route, h0, hj, hf]

/-- Witness for C5 on `gatewayz://app/settings`: the show and focus requests
precede the emitted `navigate` event. -/
theorem show_focus_before_emit_witness :
    ∃ rest, route true "gatewayz://app/settings" =
      Action.logInfo "Received deep link: gatewayz://app/settings" ::
        Action.logInfo "Handling deep link: gatewayz://app/settings" ::
        Action.showWindow :: Action.setFocus :: rest ∧
      rest.any Action.isEmit = true :=
  (show_focus_before_emit ⟨"gatewayz", some "app", "/settings", none, none⟩).2
    "gatewayz://app/settings" (by decide)

/-- Witness for C7 on a two-element JSON array payload: the trace is exactly
the dispatch of the first URL, with the second element discarded. -/
theorem single_intent_first_url_wins_witness :
    route true "[\"gatewayz://app/settings\",\"gatewayz://app/chat\"]" =
      Action.logInfo
          "Received deep link: [\"gatewayz://app/settings\",\"gatewayz://app/chat\"]" ::
        handle_deep_link true ⟨"gatewayz", some "app", "/settings", none, none⟩ := by
  have h := single_intent_first_url_wins.2.1 true
    "[\"gatewayz://app/settings\",\"gatewayz://app/chat\"]"
    "gatewayz://app/settings" ["gatewayz://app/chat"] (by decide) (by decide)
  rw [h]
  rfl

/-- C8: a successfully parsed URL is never a no-op: with the window
available, `handle_deep_link` emits exactly one event, that event is one of
the three branch events, and the full `route` trace of a payload that parses
as a URL also holds exactly one emitted event. -/
theorem parsed_url_always_routed (u : Url) (p : String) (h : url_parse p = some u) :
    emitCount (handle_deep_link true u) = 1 ∧
    emitCount (route true p) = 1 ∧
    ∀ e a, Action.emit e a ∈ handle_deep_link true u →
      e = "navigate" ∨ e = "new-chat" ∨ e = "auth-callback" := by
  refine ⟨handle_emitCount true u, ?_, ?_⟩
  · rw [show route true p = Action.logInfo ("Received deep link: " ++ p) ::
        handle_deep_link true u from by simp [route, h]]
    rw [emitCount_cons]
    simpa [Action.isEmit] using handle_emitCount true u
  · intro e a hmem
    by_cases h1 : u.path = "/chat"
    · rcases hf : (u.query_pairs.find? fun p => p.1 == "id") with _ | ⟨k, v⟩ <;>
        simp_all [handle_deep_link, h1, hf]
    · by_cases h2 : u.path = "/auth/callback" <;>
        simp_all [handle_deep_link, h1, h2]

/-- Witness for C8 on `gatewayz://app/settings`. -/
theorem parsed_url_always_routed_witness :
    emitCount (handle_deep_link true ⟨"gatewayz", some "app", "/settings", none, none⟩) = 1 ∧
    emitCount (route true "gatewayz://app/settings") = 1 :=
  ⟨(parsed_url_always_routed ⟨"gatewayz", some "app", "/settings", none, none⟩
      "gatewayz://app/settings" (by decide)).1,
   (parsed_url_always_routed ⟨"gatewayz", some "app", "/settings", none, none⟩
      "gatewayz://app/settings" (by decide)).2.1⟩

/-- C9: routing is idempotent — two invocations on the same payload with the
window available produce identical traces (the same event with the same
argument, and the same show/focus requests), there being no state carried
from the first invocation to the second. -/
theorem routing_idempotent (w : Bool) (p : String) :
    routeAll w [p, p] = [route w p, route w p] ∧
    (routeAll w [p, p]).getD 0 [] = (routeAll w [p, p]).getD 1 [] := by
  exact ⟨rfl, rfl⟩

/-- Witness for C9 on the payload `gatewayz://app/chat?id=42`. -/
theorem routing_idempotent_witness :
    routeAll true ["gatewayz://app/chat?id=42", "gatewayz://app/chat?id=42"] =
      [route true "gatewayz://app/chat?id=42", route true "gatewayz://app/chat?id=42"] :=
  (routing_idempotent true "gatewayz://app/chat?id=42").1

/-- C10: on a `/chat` URL whose query pairs contain several `id` keys, the
dispatched `navigate` argument uses the value of the first `id` pair in
query-string order; pairs whose key differs from `id` (the match being
exact and case-sensitive) are skipped. -/
theorem first_id_param_wins (u : Url) (l1 l2 : List (String × String)) (v : String)
    (hpath : u.path = "/chat")
    (hq : u.query_pairs = l1 ++ ("id", v) :: l2)
    (hfirst : ∀ kv ∈ l1, kv.1 ≠ "id") :
    handle_deep_link true u =
      [Action.logInfo ("Handling deep link: " ++ u.serialize), Action.showWindow,
       Action.setFocus, Action.emit "navigate" (Arg.str ("/chat?id=" ++ v))] := by
  have hf : (u.query_pairs.find? fun p => p.1 == "id") = some ("id", v) := by
    rw [hq]
    exact find?_first_id l1 l2 v hfirst
  simp [handle_deep_link, hpath, hf]

/-- Witness for C10 on `gatewayz://app/chat?ID=0&id=2&id=3`: the
capital-`ID` pair does not match and the first lowercase `id` (value `2`)
wins over the later one. -/
theorem first_id_param_wins_witness :
    handle_deep_link true ⟨"gatewayz", some "app", "/chat", some "ID=0&id=2&id=3", none⟩ =
      [Action.logInfo "Handling deep link: gatewayz://app/chat?ID=0&id=2&id=3",
       Action.showWindow, Action.setFocus,
       Action.emit "navigate" (Arg.str "/chat?id=2")] :=
  first_id_param_wins ⟨"gatewayz", some "app", "/chat", some "ID=0&id=2&id=3", none⟩
    [("ID", "0")] [("id", "3")] "2" rfl (by decide) (by decide)

end Gatewayz
